import Mathlib

/-!
Verification of the node-auth0 core request layer against its specification.

The development shallowly embeds three source slices:
* `src/auth/OAUthWithIDTokenValidation.js` — the OAuth token-exchange wrapper
  with id-token validation (constructor, `getKey`, `create`);
* the `RolesManager` (`addPermissions`, `removePermissions`, `assignUsers`);
* the request encoding / error sanitization contract of `Auth0RestClient`
  (whose implementation file is not part of the provided sources; those parts
  are modelled from the specification, as marked on each definition).

External collaborators (the `jsonwebtoken` verifier core, the JWKS resolver,
the network transport, the local id-token claims validator) enter the model as
explicit function parameters or spec-modelled definitions. Promises are
embedded as `Except` settlement values; a JavaScript value that matters only
through truthiness/typeof checks is embedded as the `JsValue` type.
-/

/-- A JavaScript runtime value, restricted to the shapes the embedded code
actually discriminates on (string, number, boolean, `null`, a function value,
and a generic object). `undefined` is represented by `Option.none` at use
sites. -/
inductive JsValue
  | str (s : String)
  | num (n : Int)
  | boolean (b : Bool)
  | null
  | func
  | obj
deriving DecidableEq, Repr

/-- JavaScript truthiness of a possibly-undefined value (`none` = `undefined`). -/
def jsTruthy : Option JsValue → Bool
  | none => false
  | some (JsValue.str s) => !(s == "")
  | some (JsValue.num n) => !(n == 0)
  | some (JsValue.boolean b) => b
  | some JsValue.null => false
  | some JsValue.func => true
  | some JsValue.obj => true

/-- `typeof v === 'string'`. -/
def isStringV : JsValue → Bool
  | JsValue.str _ => true
  | _ => false

/-- `cb && cb instanceof Function`. -/
def isFuncV : Option JsValue → Bool
  | some JsValue.func => true
  | _ => false

/-- JavaScript truthiness of a possibly-undefined string-typed value:
`undefined`, `null` (not representable here) and the empty string are falsy. -/
def strTruthy : Option String → Bool
  | none => false
  | some s => !(s == "")

/-- JavaScript falsiness of a possibly-undefined string (`!x`). -/
def strFalsy (x : Option String) : Bool := !(strTruthy x)

/-- Truthiness of a possibly-undefined number-typed value (`0` is falsy). -/
def intTruthy : Option Int → Bool
  | none => false
  | some n => !(n == 0)

/-- Rendering of a possibly-undefined string inside a template literal:
JavaScript interpolates the value `undefined` as the text `undefined`. -/
def jsTemplateStr : Option String → String
  | none => "undefined"
  | some s => s

/-- `a || b` on possibly-undefined strings (an empty string is falsy and is
replaced by the right operand). -/
def jsOrStr (a b : Option String) : Option String :=
  if strTruthy a then a else b

/-- Does `pat` occur at the head of `hay`? (character-list prefix test). -/
def leadsChars : List Char → List Char → Bool
  | [], _ => true
  | _ :: _, [] => false
  | p :: ps, h :: hs => p == h && leadsChars ps hs

/-- Does `pat` occur somewhere inside `hay`? -/
def containsChars : List Char → List Char → Bool
  | [], pat => pat.isEmpty
  | c :: t, pat => leadsChars pat (c :: t) || containsChars t pat

/-- `hay.includes(pat)` on strings. -/
def strIncludes (hay pat : String) : Bool :=
  containsChars hay.toList pat.toList

/-- An error value as observed by the wrapper: only its `message` field is
inspected (`err.message && err.message.includes(...)`). -/
structure JsError where
  message : Option String
deriving DecidableEq, Repr

/-- The warning text `HS256_IGNORE_VALIDATION_MESSAGE` from
`OAUthWithIDTokenValidation.js`. -/
def hs256IgnoreValidationMessage : String :=
  "Validation of `id_token` requires a `clientSecret` when using the HS256 algorithm. To ensure tokens are validated, please switch the signing algorithm to RS256 or provide a `clientSecret` in the constructor."

/-- `err.message && err.message.includes(HS256_IGNORE_VALIDATION_MESSAGE)`. -/
def errMessageIncludesWarning (e : JsError) : Bool :=
  match e.message with
  | none => false
  | some m => strIncludes m hs256IgnoreValidationMessage

/-- Errors distinguished by the managers: `ArgumentError` from `rest-facade`. -/
inductive MgmtError
  | argumentError (msg : String)
deriving DecidableEq, Repr

/-- Header of the returned identity token (JWT), as consulted by `getKey`. -/
structure JwtHeader where
  alg : String
  kid : Option String
deriving DecidableEq, Repr

/-- Payload claims of the identity token that the local claims validator
inspects (presence-checked claims). -/
structure IdTokenPayload where
  iss : Option String
  sub : Option String
  aud : Option String
  exp : Option Int
  iat : Option Int
  nonce : Option String
  org_id : Option String
deriving DecidableEq, Repr

/-- An identity token: its decoded header and payload. The raw signature
bytes never appear in the wrapper logic; signature checking is delegated to
the external verifier, which enters the model as a function parameter. -/
structure IdToken where
  header : JwtHeader
  payload : IdTokenPayload
deriving DecidableEq, Repr

/-- A token-exchange response (`r`): the wrapper only discriminates on
`r.id_token`; the remaining fields travel through opaque. -/
structure TokenResponse where
  id_token : Option IdToken
  access_token : Option String
deriving DecidableEq, Repr

/-- The per-exchange request `data`, as consulted when building the
verification options (`data.organization`, `data.nonce`, `data.maxAge`). -/
structure ExchangeData where
  organization : Option String
  nonce : Option String
  maxAge : Option Int
deriving DecidableEq, Repr

/-- The verification options object built by `create` (lines 78–94). -/
structure VerifyOptions where
  algorithms : List String
  audience : Option String
  issuer : String
  organization : Option String
  nonce : Option String
  maxAge : Option Int
deriving DecidableEq, Repr

/-- A record returned by the JWKS resolver (`getSigningKey` yields a key
object exposing `publicKey` and/or `rsaPublicKey`). -/
structure SigningKeyRecord where
  publicKey : Option String
  rsaPublicKey : Option String
deriving DecidableEq, Repr

/-- The key material handed to the verifier by the `getKey` callback: either
the configured client secret (the `Buffer.from(secret, 'base64')` decoding is
kept abstract, the raw configured string is carried) or the resolved public
key (`key.publicKey || key.rsaPublicKey`). -/
inductive VerifyKey
  | secret (s : String)
  | publicKey (pem : Option String)
deriving DecidableEq, Repr

/-- Constructor options of `OAUthWithIDTokenValidation` (`undefined` optional
fields are `none`). -/
structure AuthenticatorOptions where
  domain : Option String
  clientId : Option String
  clientSecret : Option String
  supportedAlgorithms : Option (List String)
  __bypassIdTokenValidation : Bool
deriving DecidableEq, Repr

/-- The state of a constructed `OAUthWithIDTokenValidation` instance (the
fields the constructor stores on `this`, with `jwksUri` being the URL handed
to the JWKS client factory). -/
structure OAUthWithIDTokenValidation where
  __bypassIdTokenValidation : Bool
  clientId : Option String
  clientSecret : Option String
  domain : Option String
  supportedAlgorithms : List String
  jwksUri : String
deriving DecidableEq, Repr

/-- The constructor (lines 21–43): rejects a missing `oauth` param and missing
options with `ArgumentError`, stores the options, defaults
`supportedAlgorithms` to `['HS256', 'RS256']`, and points the JWKS client at
`https://${options.domain}/.well-known/jwks.json`. -/
def OAUthWithIDTokenValidation.ofOptions (oauth : Option Unit)
    (options : Option AuthenticatorOptions) :
    Except MgmtError OAUthWithIDTokenValidation :=
  match oauth with
  | none => Except.error (MgmtError.argumentError "Missing OAuthAuthenticator param")
  | some _ =>
    match options with
    | none => Except.error (MgmtError.argumentError "Missing authenticator options")
    | some o =>
      Except.ok
        { __bypassIdTokenValidation := o.__bypassIdTokenValidation
          clientId := o.clientId
          clientSecret := o.clientSecret
          domain := o.domain
          supportedAlgorithms := o.supportedAlgorithms.getD ["HS256", "RS256"]
          jwksUri := "https://" ++ jsTemplateStr o.domain ++ "/.well-known/jwks.json" }

/-- `getKey` (lines 61–75): for an HS256 header, a falsy configured client
secret yields the `HS256_IGNORE_VALIDATION_MESSAGE` error while a configured
secret yields the symmetric key; for any other algorithm the key is resolved
through the JWKS resolver by `kid`, errors propagating, and the signing key is
`key.publicKey || key.rsaPublicKey`. The resolver is the injected external
`jwks-rsa` collaborator, passed as a function. -/
def OAUthWithIDTokenValidation.getKey (c : OAUthWithIDTokenValidation)
    (jwks : Option String → Except JsError SigningKeyRecord)
    (header : JwtHeader) : Except JsError VerifyKey :=
  if header.alg == "HS256" then
    if strFalsy c.clientSecret then
      Except.error { message := some hs256IgnoreValidationMessage }
    else
      Except.ok (VerifyKey.secret (c.clientSecret.getD ""))
  else
    match jwks header.kid with
    | Except.error e => Except.error e
    | Except.ok k => Except.ok (VerifyKey.publicKey (jsOrStr k.publicKey k.rsaPublicKey))

/-- The verification options object built inside `create` (lines 78–94):
`algorithms`, `audience`, `issuer` always, and each of `organization`,
`nonce`, `maxAge` only when the corresponding `data` field is truthy. -/
def OAUthWithIDTokenValidation.buildVerifyOptions (c : OAUthWithIDTokenValidation)
    (data : ExchangeData) : VerifyOptions :=
  let base : VerifyOptions :=
    { algorithms := c.supportedAlgorithms
      audience := c.clientId
      issuer := "https://" ++ jsTemplateStr c.domain ++ "/"
      organization := none
      nonce := none
      maxAge := none }
  let o1 := if strTruthy data.organization then { base with organization := data.organization } else base
  let o2 := if strTruthy data.nonce then { o1 with nonce := data.nonce } else o1
  if intTruthy data.maxAge then { o2 with maxAge := data.maxAge } else o2

/-- The external `jwt.verify(token, getKey, options, cb)` call as observed by
the wrapper: the key callback is consulted first and a key-callback error
surfaces as the verification error (its message preserved, so the wrapper's
`includes` test on `HS256_IGNORE_VALIDATION_MESSAGE` matches); with a resolved
key, the signature/standard-claims check is the external verifier core
`sigVerify`, returning `none` on success or the verification error. -/
def jwtVerify (tok : IdToken) (keyResult : Except JsError VerifyKey)
    (opts : VerifyOptions)
    (sigVerify : IdToken → VerifyKey → VerifyOptions → Option JsError) :
    Option JsError :=
  match keyResult with
  | Except.error e => some e
  | Except.ok k => sigVerify tok k opts

/-- `create` (lines 55–116), as the settlement of the `createAndValidate`
promise. `exchangeResult` is the settlement of the wrapped
`oauth.create(params, data)` call; `jwks`, `sigVerify` are the external JWKS
resolver and verifier core; `validate` is the local claims validator
(`require('./idToken').validate`), whose success is `none` and whose thrown
error is `some`. A rejection of the wrapped call propagates; with the bypass
flag set or no `id_token` the response passes through; otherwise the token is
verified and a verification error whose message contains the HS256 warning
text is downgraded to a console warning, after which the local claims
validator runs and its error, if any, rejects the call. -/
def OAUthWithIDTokenValidation.create (c : OAUthWithIDTokenValidation)
    (data : ExchangeData)
    (exchangeResult : Except JsError TokenResponse)
    (jwks : Option String → Except JsError SigningKeyRecord)
    (sigVerify : IdToken → VerifyKey → VerifyOptions → Option JsError)
    (validate : IdToken → VerifyOptions → Option JsError) :
    Except JsError TokenResponse :=
  match exchangeResult with
  | Except.error e => Except.error e
  | Except.ok r =>
    if c.__bypassIdTokenValidation then Except.ok r
    else
      match r.id_token with
      | none => Except.ok r
      | some tok =>
        let opts := c.buildVerifyOptions data
        match jwtVerify tok (c.getKey jwks tok.header) opts sigVerify with
        | some err =>
          if errMessageIncludesWarning err then
            match validate tok opts with
            | some e2 => Except.error e2
            | none => Except.ok r
          else Except.error err
        | none =>
          match validate tok opts with
          | some e2 => Except.error e2
          | none => Except.ok r

/-- The callback/promise dispatch at the tail of `create` (lines 117–121):
without a callback the `createAndValidate` promise itself is returned;
with a callback, nothing is returned (`undefined`). -/
def createReturn (result : Except JsError TokenResponse) (cbGiven : Bool) :
    Option (Except JsError TokenResponse) :=
  if cbGiven then none else some result

/-- An invocation of the user callback: `cb(null, r)` on success,
`cb(e)` on failure. -/
inductive CbEvent
  | success (r : TokenResponse)
  | failure (e : JsError)
deriving DecidableEq, Repr

/-- The sequence of callback invocations performed by
`createAndValidate.then((r) => cb(null, r)).catch((e) => cb(e))` for a given
settlement of `createAndValidate`. `cbThrows ev = some e` means the user
callback itself throws `e` when invoked with event `ev`. A fulfilled promise
invokes the callback through `.then`; if that invocation throws, the thrown
error rejects the derived promise and `.catch` invokes the callback a second
time, with the thrown error. A rejected promise skips `.then` and invokes the
callback once through `.catch` (an error thrown there leaves the chain as an
unhandled rejection, with no further invocation). -/
def callbackInvocations (result : Except JsError TokenResponse)
    (cbThrows : CbEvent → Option JsError) : List CbEvent :=
  match result with
  | Except.ok r =>
    match cbThrows (CbEvent.success r) with
    | none => [CbEvent.success r]
    | some e => [CbEvent.success r, CbEvent.failure e]
  | Except.error e => [CbEvent.failure e]

/-- The event a settlement delivers to the callback. -/
def settlementEvent : Except JsError TokenResponse → CbEvent
  | Except.ok r => CbEvent.success r
  | Except.error e => CbEvent.failure e

/-- Modelled from the spec: the local id-token claims validator
(`require('./idToken').validate`, whose source file is not among the provided
sources). Per §4.4 it "checks required claims presence/shape" against the raw
token and the verification options, throwing on any failure; per §4.4 and §7
"any failure here rejects the call with that validator's error". The model
checks presence of the registered claims and of the nonce / organization
claims demanded by the options. -/
def validateIdTokenModel (tok : IdToken) (opts : VerifyOptions) : Option JsError :=
  if tok.payload.iss.isNone then
    some { message := some "Issuer (iss) claim must be a string present in the ID token" }
  else if tok.payload.sub.isNone then
    some { message := some "Subject (sub) claim must be a string present in the ID token" }
  else if tok.payload.aud.isNone then
    some { message := some "Audience (aud) claim must be a string or array of strings present in the ID token" }
  else if tok.payload.exp.isNone then
    some { message := some "Expiration Time (exp) claim must be a number present in the ID token" }
  else if tok.payload.iat.isNone then
    some { message := some "Issued At (iat) claim must be a number present in the ID token" }
  else if opts.nonce.isSome && tok.payload.nonce.isNone then
    some { message := some "Nonce (nonce) claim must be a string present in the ID token" }
  else if opts.organization.isSome && tok.payload.org_id.isNone then
    some { message := some "Organization Id (org_id) claim must be a string present in the ID token" }
  else none

/-!
### RolesManager (`assignUsers`, `addPermissions`, `removePermissions`)
-/

/-- The `params` object of a RolesManager call, its `id` member possibly
absent (`undefined` = `none`). -/
structure RoleParams where
  id : Option JsValue
deriving DecidableEq, Repr

/-- `x = x || {}` applied to the `params` argument. -/
def defaultParams (params : Option RoleParams) : RoleParams :=
  params.getD { id := none }

/-- `data = data || {}` applied to the `data` argument. -/
def defaultData (data : Option JsValue) : JsValue :=
  match data with
  | none => JsValue.obj
  | some v => if jsTruthy (some v) then v else JsValue.obj

/-- The sub-resource call a RolesManager operation delegates to, carrying the
(defaulted) `params` and `data` it forwards and whether the user callback is
forwarded along. -/
inductive RoleCall
  | permissionsCreate (params : RoleParams) (data : JsValue) (withCb : Bool)
  | permissionsDelete (params : RoleParams) (data : JsValue) (withCb : Bool)
  | usersCreate (params : RoleParams) (data : JsValue) (withCb : Bool)
deriving DecidableEq, Repr

/-- The `params.id` validation shared by the three operations: a falsy id is
rejected as missing, a truthy non-string id is rejected as the wrong type;
both raise `ArgumentError` synchronously, before any sub-resource call. -/
def checkRoleId (p : RoleParams) : Option MgmtError :=
  if !(jsTruthy p.id) then
    some (MgmtError.argumentError "The roleId passed in params cannot be null or undefined")
  else if !(match p.id with
            | some v => isStringV v
            | none => false) then
    some (MgmtError.argumentError "The role Id has to be a string")
  else none

/-- `RolesManager.prototype.addPermissions` (part_000 lines 245–262): after
defaulting `data`/`params` and validating `params.id`, delegates to
`permissions.create`, forwarding the callback when one (a function) is
supplied. An `Except.error` settlement is the synchronous `throw`. -/
def RolesManager.addPermissions (params : Option RoleParams)
    (data : Option JsValue) (cb : Option JsValue) : Except MgmtError RoleCall :=
  let d := defaultData data
  let p := defaultParams params
  match checkRoleId p with
  | some e => Except.error e
  | none =>
    if jsTruthy cb && isFuncV cb then Except.ok (RoleCall.permissionsCreate p d true)
    else Except.ok (RoleCall.permissionsCreate p d false)

/-- `RolesManager.prototype.removePermissions` (part_000 lines 289–306): same
validation, delegating to `permissions.delete`. -/
def RolesManager.removePermissions (params : Option RoleParams)
    (data : Option JsValue) (cb : Option JsValue) : Except MgmtError RoleCall :=
  let d := defaultData data
  let p := defaultParams params
  match checkRoleId p with
  | some e => Except.error e
  | none =>
    if jsTruthy cb && isFuncV cb then Except.ok (RoleCall.permissionsDelete p d true)
    else Except.ok (RoleCall.permissionsDelete p d false)

/-- `RolesManager.prototype.assignUsers` (part_000 lines 365–382): same
validation; with a function callback it delegates to `permissions.create`
(forwarding the callback), without one it delegates to `users.create` and
returns its promise. -/
def RolesManager.assignUsers (params : Option RoleParams)
    (data : Option JsValue) (cb : Option JsValue) : Except MgmtError RoleCall :=
  let d := defaultData data
  let p := defaultParams params
  match checkRoleId p with
  | some e => Except.error e
  | none =>
    if jsTruthy cb && isFuncV cb then Except.ok (RoleCall.permissionsCreate p d true)
    else Except.ok (RoleCall.usersCreate p d false)

/-!
### Auth0RestClient: request-target encoding and error sanitization

The implementation file `src/Auth0RestClient.js` is not among the provided
sources (only its test suite is), so these parts are modelled from the
specification (§4.1, §4.2, §6, §8) and checked against the behaviour the test
suite pins down.
-/

/-- An uppercase hexadecimal digit. -/
def hexDigitChar (n : Nat) : Char :=
  if n < 10 then Char.ofNat (48 + n) else Char.ofNat (55 + n)

/-- A percent-escape `%XX` for one byte value. -/
def percentEscape (b : Nat) : String :=
  String.mk ['%', hexDigitChar (b / 16), hexDigitChar (b % 16)]

/-- The UTF-8 byte values of one character. -/
def utf8ByteList (c : Char) : List Nat :=
  let n := c.toNat
  if n < 128 then [n]
  else if n < 2048 then [192 + n / 64, 128 + n % 64]
  else if n < 65536 then [224 + n / 4096, 128 + (n / 64) % 64, 128 + n % 64]
  else [240 + n / 262144, 128 + (n / 4096) % 64, 128 + (n / 64) % 64, 128 + n % 64]

/-- The characters `encodeURIComponent` leaves unescaped: ASCII letters,
digits, and `- _ . ! ~ * ' ( )` (here by code point: 45, 95, 46, 33, 126, 42,
39, 40, 41). -/
def uriUnreserved (c : Char) : Bool :=
  let n := c.toNat
  (65 ≤ n && n ≤ 90) || (97 ≤ n && n ≤ 122) || (48 ≤ n && n ≤ 57) ||
    [45, 95, 46, 33, 126, 42, 39, 40, 41].contains n

/-- Modelled from the spec: strict percent-encoding of the identifier value
(JavaScript `encodeURIComponent`), escaping every reserved character — in
particular `|` and `/` — as uppercase `%XX` UTF-8 escapes (§4.1, §8). -/
def encodeURIComponent (s : String) : String :=
  String.join (s.toList.map fun c =>
    if uriUnreserved c then String.mk [c]
    else String.join ((utf8ByteList c).map percentEscape))

/-- Substitution of the designated `:id` placeholder in a URL template by a
replacement character sequence: each occurrence of the three characters
`:id` is replaced by `repl`. -/
def substIdChars (repl : List Char) : List Char → List Char
  | [] => []
  | ':' :: 'i' :: 'd' :: rest => repl ++ substIdChars repl rest
  | c :: rest => c :: substIdChars repl rest

/-- Modelled from the spec: the request target built from a URL template and
the request params (§4.1): the designated identifier parameter `id` is
substituted into the path with strict percent-encoding, while the remaining
parameters are passed to the transport as query parameters under its default
encoding (which, per the pinned test behaviour, also percent-escapes reserved
characters in values). -/
def buildRequestTarget (template : String) (params : List (String × String)) :
    String :=
  let path :=
    match params.lookup "id" with
    | some v => String.mk (substIdChars (encodeURIComponent v).toList template.toList)
    | none => template
  let qs := params.filter fun p => !(p.1 == "id")
  match qs with
  | [] => path
  | _ => path ++ "?" ++ String.intercalate "&" (qs.map fun p => p.1 ++ "=" ++ encodeURIComponent p.2)

/-- The captured outbound request carried inside a transport error (the
test suite reads `err.originalError.response.request._header`): a header map
from lowercased header names to values. -/
structure CapturedRequest where
  header : List (String × String)
deriving DecidableEq, Repr

/-- A transport-layer error, possibly carrying the captured outbound
request. -/
structure RestError where
  message : String
  request : Option CapturedRequest
deriving DecidableEq, Repr

/-- Modelled from the spec: redaction of the authorization header (§6): the
core locates an `authorization` entry in the captured request's header map and
replaces its value with the literal marker `[REDACTED]`. -/
def sanitizeHeaders (hs : List (String × String)) : List (String × String) :=
  hs.map fun kv => if kv.1 = "authorization" then (kv.1, "[REDACTED]") else kv

/-- Modelled from the spec: error sanitization of `Auth0RestClient` (§4.2):
on failure the error's captured outbound request representation, if present,
has its authorization header redacted before the error is returned. -/
def sanitizeError (e : RestError) : RestError :=
  { e with request := e.request.map fun r => { header := sanitizeHeaders r.header } }

/-- Modelled from the spec: the per-call flow of `Auth0RestClient` (§4.2):
first the token provider is consulted (its settlement is `tokenResult`); a
provider failure surfaces verbatim with no network attempt; on success the
credential is injected and the underlying call `doCall` runs, a failure of
which is sanitized before being returned. -/
def authClientCall {A : Type} (tokenResult : Except String String)
    (doCall : String → Except RestError A) : Except RestError A :=
  match tokenResult with
  | Except.error m => Except.error { message := m, request := none }
  | Except.ok tk =>
    match doCall tk with
    | Except.ok a => Except.ok a
    | Except.error e => Except.error (sanitizeError e)

/-!
### Concrete instances used to witness the theorems below
-/

/-- A client configured for asymmetric validation (domain, id, secret all
set). -/
def c1Client : OAUthWithIDTokenValidation :=
  { __bypassIdTokenValidation := false
    clientId := some "CID"
    clientSecret := some "c2VjcmV0"
    domain := some "tenant.auth0.com"
    supportedAlgorithms := ["HS256", "RS256"]
    jwksUri := "https://tenant.auth0.com/.well-known/jwks.json" }

/-- An RS256-signed identity token with all registered claims present. -/
def c1Tok : IdToken :=
  { header := { alg := "RS256", kid := some "kid1" }
    payload :=
      { iss := some "https://tenant.auth0.com/"
        sub := some "auth0|user1"
        aud := some "CID"
        exp := some 2000000
        iat := some 1000000
        nonce := none
        org_id := none } }

/-- A successful exchange response carrying `c1Tok`. -/
def c1Resp : TokenResponse := { id_token := some c1Tok, access_token := some "AT" }

/-- Exchange request data with none of the optional claims. -/
def c1Data : ExchangeData := { organization := none, nonce := none, maxAge := none }

/-- A JWKS resolver that resolves every kid to a fixed public key. -/
def c1Jwks : Option String → Except JsError SigningKeyRecord :=
  fun _ => Except.ok { publicKey := some "PEM", rsaPublicKey := none }

/-- A verifier core that rejects every signature. -/
def c1Sig : IdToken → VerifyKey → VerifyOptions → Option JsError :=
  fun _ _ _ => some { message := some "invalid signature" }

/-- A claims validator that accepts every token. -/
def c1Val : IdToken → VerifyOptions → Option JsError := fun _ _ => none

/-- A client with no `clientSecret` configured. -/
def c2Client : OAUthWithIDTokenValidation :=
  { __bypassIdTokenValidation := false
    clientId := some "CID"
    clientSecret := none
    domain := some "tenant.auth0.com"
    supportedAlgorithms := ["HS256", "RS256"]
    jwksUri := "https://tenant.auth0.com/.well-known/jwks.json" }

/-- An HS256-signed identity token whose payload carries no claims at all. -/
def c2Tok : IdToken :=
  { header := { alg := "HS256", kid := none }
    payload :=
      { iss := none, sub := none, aud := none, exp := none, iat := none
        nonce := none, org_id := none } }

/-- A successful exchange response carrying `c2Tok`. -/
def c2Resp : TokenResponse := { id_token := some c2Tok, access_token := some "AT" }

/-- Exchange request data with none of the optional claims. -/
def c2Data : ExchangeData := { organization := none, nonce := none, maxAge := none }

/-- A JWKS resolver that fails on every kid (never consulted on the HS256
path). -/
def c2Jwks : Option String → Except JsError SigningKeyRecord :=
  fun _ => Except.error { message := some "jwks resolver consulted unexpectedly" }

/-- A verifier core that accepts every signature. -/
def c2Sig : IdToken → VerifyKey → VerifyOptions → Option JsError := fun _ _ _ => none

/-- Constructor options whose `organization`-relevant data will be exercised
in the verification-options theorems. -/
def c5Options : AuthenticatorOptions :=
  { domain := some "tenant.auth0.com"
    clientId := some "CID"
    clientSecret := none
    supportedAlgorithms := none
    __bypassIdTokenValidation := false }

/-- Exchange request data whose `organization` field is present but holds the
empty string (a falsy value). -/
def c5Data : ExchangeData := { organization := some "", nonce := none, maxAge := none }

/-- The client the constructor builds from `c5Options`. -/
def c5Client : OAUthWithIDTokenValidation :=
  { __bypassIdTokenValidation := false
    clientId := some "CID"
    clientSecret := none
    domain := some "tenant.auth0.com"
    supportedAlgorithms := ["HS256", "RS256"]
    jwksUri := "https://tenant.auth0.com/.well-known/jwks.json" }

/-- A response with no identity token. -/
def c8Resp : TokenResponse := { id_token := none, access_token := some "AT" }

/-- A user callback that throws when invoked with a success result and
returns normally when invoked with an error. -/
def c8CbThrows : CbEvent → Option JsError :=
  fun ev =>
    match ev with
    | CbEvent.success _ => some { message := some "callback threw" }
    | CbEvent.failure _ => none

/-!
### Helper lemmas
-/

/-- Closed form of the verification options built by `create`. -/
theorem buildVerifyOptions_spec (c : OAUthWithIDTokenValidation) (data : ExchangeData) :
    c.buildVerifyOptions data =
      { algorithms := c.supportedAlgorithms
        audience := c.clientId
        issuer := "https://" ++ jsTemplateStr c.domain ++ "/"
        organization := if strTruthy data.organization then data.organization else none
        nonce := if strTruthy data.nonce then data.nonce else none
        maxAge := if intTruthy data.maxAge then data.maxAge else none } := by
  unfold OAUthWithIDTokenValidation.buildVerifyOptions
  cases h1 : strTruthy data.organization <;> cases h2 : strTruthy data.nonce <;>
    cases h3 : intTruthy data.maxAge <;> simp [h1, h2, h3]

/-- The HS256 warning error is recognised by the wrapper's `includes` test. -/
theorem warning_error_recognised :
    errMessageIncludesWarning { message := some hs256IgnoreValidationMessage } = true := by
  decide

/-- Redacting a header map turns a found `authorization` entry into the
literal marker. -/
theorem lookup_sanitizeHeaders (hs : List (String × String)) (v : String)
    (h : hs.lookup "authorization" = some v) :
    (sanitizeHeaders hs).lookup "authorization" = some "[REDACTED]" := by
  induction hs with
  | nil => simp [List.lookup] at h
  | cons kv t ih =>
    rcases kv with ⟨k, w⟩
    by_cases hk : k = "authorization"
    · subst hk
      simp [sanitizeHeaders, List.lookup]
    · have hk3 : ("authorization" == k) = false := by
        simp only [beq_eq_false_iff_ne, ne_eq]
        exact fun he => hk he.symm
      have h2 : t.lookup "authorization" = some v := by
        simpa [List.lookup, hk3] using h
      have hhead : sanitizeHeaders ((k, w) :: t) = (k, w) :: sanitizeHeaders t := by
        simp [sanitizeHeaders, hk]
      rw [hhead]
      simpa [List.lookup, hk3] using ih h2

/-!
### Claim theorems
-/

/-- C4: for every call to `create` where the wrapped exchange succeeds, if
the bypass flag is set or the response carries no identity token, the
exchange response is returned to the caller unchanged; the conclusion holds
for every JWKS resolver, verifier core and claims validator, so no
verification step influences the outcome. -/
theorem create_passthrough_on_bypass_or_missing_token
    (c : OAUthWithIDTokenValidation) (data : ExchangeData) (r : TokenResponse)
    (jwks : Option String → Except JsError SigningKeyRecord)
    (sigVerify : IdToken → VerifyKey → VerifyOptions → Option JsError)
    (validate : IdToken → VerifyOptions → Option JsError)
    (h : c.__bypassIdTokenValidation = true ∨ r.id_token = none) :
    c.create data (Except.ok r) jwks sigVerify validate = Except.ok r := by
  rcases h with h | h
  · simp [OAUthWithIDTokenValidation.create, h]
  · cases hb : c.__bypassIdTokenValidation <;>
      simp [OAUthWithIDTokenValidation.create, h, hb]

/-- Witness for C4: a bypassing client and, separately, a response without an
identity token, both pass through unchanged. -/
theorem create_passthrough_on_bypass_or_missing_token_witness :
    OAUthWithIDTokenValidation.create
        { c1Client with __bypassIdTokenValidation := true }
        c1Data (Except.ok c1Resp) c1Jwks c1Sig c1Val = Except.ok c1Resp ∧
    OAUthWithIDTokenValidation.create c1Client c1Data (Except.ok c8Resp)
        c1Jwks c1Sig c1Val = Except.ok c8Resp :=
  ⟨create_passthrough_on_bypass_or_missing_token _ c1Data c1Resp c1Jwks c1Sig c1Val
      (Or.inl rfl),
    create_passthrough_on_bypass_or_missing_token c1Client c1Data c8Resp c1Jwks c1Sig c1Val
      (Or.inr rfl)⟩

/-- C10: the constructor does not validate `options.domain`: with a missing
domain construction succeeds, the JWKS resolver is pointed at the literal
`https://undefined/.well-known/jwks.json`, and every verification-options
object built by the constructed client uses the literal issuer
`https://undefined/`. -/
theorem ctor_tolerates_missing_domain
    (o : AuthenticatorOptions) (data : ExchangeData) (h : o.domain = none) :
    OAUthWithIDTokenValidation.ofOptions (some ()) (some o) =
      Except.ok
        { __bypassIdTokenValidation := o.__bypassIdTokenValidation
          clientId := o.clientId
          clientSecret := o.clientSecret
          domain := o.domain
          supportedAlgorithms := o.supportedAlgorithms.getD ["HS256", "RS256"]
          jwksUri := "https://undefined/.well-known/jwks.json" } ∧
    ∀ c, OAUthWithIDTokenValidation.ofOptions (some ()) (some o) = Except.ok c →
      (c.buildVerifyOptions data).issuer = "https://undefined/" := by
  constructor
  · simp [OAUthWithIDTokenValidation.ofOptions, h, jsTemplateStr]
  · intro c hc
    simp [OAUthWithIDTokenValidation.ofOptions] at hc
    rw [← hc, buildVerifyOptions_spec]
    simp [h, jsTemplateStr]

/-- Witness for C10 at a concrete options object lacking a domain. -/
theorem ctor_tolerates_missing_domain_witness :
    OAUthWithIDTokenValidation.ofOptions (some ())
        (some { domain := none, clientId := some "CID", clientSecret := none
                supportedAlgorithms := none, __bypassIdTokenValidation := false }) =
      Except.ok
        { __bypassIdTokenValidation := false
          clientId := some "CID"
          clientSecret := none
          domain := none
          supportedAlgorithms := ["HS256", "RS256"]
          jwksUri := "https://undefined/.well-known/jwks.json" } :=
  (ctor_tolerates_missing_domain
      { domain := none, clientId := some "CID", clientSecret := none
        supportedAlgorithms := none, __bypassIdTokenValidation := false }
      c1Data rfl).1

/-- C6: the identifier placeholder is substituted with strict
percent-encoding — in general the path is the template prefix followed by the
strict encoding of the identifier — and on the pinned concrete inputs the
template `/some-resource/:id` with `id = auth0|1234/5678` yields the path
`/some-resource/auth0%7C1234%2F5678`, while co-present non-identifier
parameters travel in the query string under the transport encoding. -/
theorem buildRequestTarget_encodes_identifier :
    buildRequestTarget "/some-resource/:id" [("id", "auth0|1234/5678")] =
      "/some-resource/auth0%7C1234%2F5678" ∧
    buildRequestTarget "/some-resource/:id"
        [("id", "1234"), ("otherEncoded", "auth0|6789"), ("other", "foobar")] =
      "/some-resource/1234?otherEncoded=auth0%7C6789&other=foobar" ∧
    ∀ v : String, buildRequestTarget "/some-resource/:id" [("id", v)] =
      "/some-resource/" ++ encodeURIComponent v := by
  refine ⟨by decide, by decide, ?_⟩
  intro v
  show String.mk (substIdChars (encodeURIComponent v).toList "/some-resource/:id".toList) =
    "/some-resource/" ++ encodeURIComponent v
  simp only [substIdChars, String.toList]
  rw [List.append_nil]
  rfl

/-- C3: for every failed call whose error carries a captured outbound request
containing an authorization header, the error returned by the client has that
header redacted to the literal `[REDACTED]`, whatever the real credential
value was. -/
theorem authClientCall_redacts_authorization {A : Type}
    (tokenResult : Except String String) (tk : String)
    (doCall : String → Except RestError A) (e : RestError)
    (req : CapturedRequest) (v : String)
    (htk : tokenResult = Except.ok tk)
    (hc : doCall tk = Except.error e)
    (hr : e.request = some req)
    (hv : req.header.lookup "authorization" = some v) :
    authClientCall tokenResult doCall =
      Except.error { message := e.message
                     request := some { header := sanitizeHeaders req.header } } ∧
    (sanitizeHeaders req.header).lookup "authorization" = some "[REDACTED]" := by
  subst htk
  constructor
  · simp [authClientCall, hc, sanitizeError, hr]
  · exact lookup_sanitizeHeaders req.header v hv

/-- Witness for C3: a 401 failure whose captured request carried a real
bearer token comes back with the header replaced by the marker. -/
theorem authClientCall_redacts_authorization_witness :
    authClientCall (A := Unit) (Except.ok "access_token")
        (fun _ => Except.error
          { message := "Unauthorized"
            request := some { header := [("authorization", "Bearer access_token")] } }) =
      Except.error
        { message := "Unauthorized"
          request := some { header := [("authorization", "[REDACTED]")] } } :=
  (authClientCall_redacts_authorization (Except.ok "access_token") "access_token"
      (fun _ => Except.error
        { message := "Unauthorized"
          request := some { header := [("authorization", "Bearer access_token")] } })
      { message := "Unauthorized"
        request := some { header := [("authorization", "Bearer access_token")] } }
      { header := [("authorization", "Bearer access_token")] }
      "Bearer access_token" rfl rfl rfl (by decide)).1

/-- C1: when the wrapped exchange succeeds, the response carries an identity
token and the bypass flag is not set, then (i) a signature/standard-claims
verification error whose message does not contain the missing-secret warning
text rejects the call with exactly that error, (ii) a failure of the local
claims validator rejects the call with the validator's error whenever no
non-warning signature error pre-empts it, and (iii) a delivered response
requires the validator to have passed and every signature error to have been
the warning case — so the exchanged response is never delivered past a true
verification failure. -/
theorem create_rejects_true_verification_failure
    (c : OAUthWithIDTokenValidation) (data : ExchangeData) (r : TokenResponse)
    (tok : IdToken)
    (jwks : Option String → Except JsError SigningKeyRecord)
    (sigVerify : IdToken → VerifyKey → VerifyOptions → Option JsError)
    (validate : IdToken → VerifyOptions → Option JsError)
    (hb : c.__bypassIdTokenValidation = false)
    (ht : r.id_token = some tok) :
    (∀ e, jwtVerify tok (c.getKey jwks tok.header) (c.buildVerifyOptions data) sigVerify = some e →
      errMessageIncludesWarning e = false →
      c.create data (Except.ok r) jwks sigVerify validate = Except.error e) ∧
    (∀ e, validate tok (c.buildVerifyOptions data) = some e →
      (∀ w, jwtVerify tok (c.getKey jwks tok.header) (c.buildVerifyOptions data) sigVerify = some w →
        errMessageIncludesWarning w = true) →
      c.create data (Except.ok r) jwks sigVerify validate = Except.error e) ∧
    (∀ x, c.create data (Except.ok r) jwks sigVerify validate = Except.ok x →
      validate tok (c.buildVerifyOptions data) = none ∧
      ∀ w, jwtVerify tok (c.getKey jwks tok.header) (c.buildVerifyOptions data) sigVerify = some w →
        errMessageIncludesWarning w = true) := by
  refine ⟨?_, ?_, ?_⟩
  · intro e hv hw
    simp [OAUthWithIDTokenValidation.create, hb, ht, hv, hw]
  · intro e hval hall
    cases hv : jwtVerify tok (c.getKey jwks tok.header) (c.buildVerifyOptions data) sigVerify with
    | none => simp [OAUthWithIDTokenValidation.create, hb, ht, hv, hval]
    | some w =>
      have hw := hall w hv
      simp [OAUthWithIDTokenValidation.create, hb, ht, hv, hw, hval]
  · intro x hx
    cases hv : jwtVerify tok (c.getKey jwks tok.header) (c.buildVerifyOptions data) sigVerify with
    | none =>
      cases hval : validate tok (c.buildVerifyOptions data) with
      | none => exact ⟨rfl, fun w hw => Option.noConfusion hw⟩
      | some e =>
        rw [OAUthWithIDTokenValidation.create] at hx
        simp [hb, ht, hv, hval] at hx
    | some w =>
      cases hw : errMessageIncludesWarning w with
      | false =>
        rw [OAUthWithIDTokenValidation.create] at hx
        simp [hb, ht, hv, hw] at hx
      | true =>
        cases hval : validate tok (c.buildVerifyOptions data) with
        | none =>
          refine ⟨rfl, fun w2 hw2 => ?_⟩
          cases hw2
          exact hw
        | some e =>
          rw [OAUthWithIDTokenValidation.create] at hx
          simp [hb, ht, hv, hw, hval] at hx

/-- Witness for C1: with a verifier core that reports an invalid signature,
the call rejects with that error and the exchange response is not
delivered. -/
theorem create_rejects_true_verification_failure_witness :
    c1Client.create c1Data (Except.ok c1Resp) c1Jwks c1Sig c1Val =
      Except.error { message := some "invalid signature" } :=
  (create_rejects_true_verification_failure c1Client c1Data c1Resp c1Tok
      c1Jwks c1Sig c1Val rfl rfl).1
    { message := some "invalid signature" } rfl (by decide)

/-- C2 counterexample: a successful exchange returning an HS256-signed
identity token with no configured client secret on which the create call does
NOT succeed — the missing-secret failure is downgraded to a warning, but the
local claims validator still runs and its failure (here: a token without an
`iss` claim) rejects the call. -/
theorem create_hs256_missing_secret_counterexample :
    c2Client.clientSecret = none ∧
    c2Tok.header.alg = "HS256" ∧
    c2Resp.id_token = some c2Tok ∧
    c2Client.create c2Data (Except.ok c2Resp) c2Jwks c2Sig validateIdTokenModel =
      Except.error { message := some "Issuer (iss) claim must be a string present in the ID token" } := by
  exact ⟨rfl, rfl, rfl, rfl⟩

/-- C2 (amended): for a successful exchange returning an HS256-signed
identity token when no client secret is configured, the missing-secret
verification failure is downgraded to a warning and the signature is not
verified — key resolution yields the warning error instead of a key, and the
outcome is the same for every signature-verifier core; the call then succeeds
provided the subsequent local claims validator accepts the token. -/
theorem create_hs256_missing_secret_downgraded
    (c : OAUthWithIDTokenValidation) (data : ExchangeData) (r : TokenResponse)
    (tok : IdToken)
    (jwks : Option String → Except JsError SigningKeyRecord)
    (validate : IdToken → VerifyOptions → Option JsError)
    (hb : c.__bypassIdTokenValidation = false)
    (hs : strFalsy c.clientSecret = true)
    (halg : tok.header.alg = "HS256")
    (ht : r.id_token = some tok)
    (hv : validate tok (c.buildVerifyOptions data) = none) :
    c.getKey jwks tok.header = Except.error { message := some hs256IgnoreValidationMessage } ∧
    ∀ sigVerify, c.create data (Except.ok r) jwks sigVerify validate = Except.ok r := by
  have hkey : c.getKey jwks tok.header =
      Except.error { message := some hs256IgnoreValidationMessage } := by
    simp [OAUthWithIDTokenValidation.getKey, halg, hs]
  refine ⟨hkey, fun sigVerify => ?_⟩
  simp [OAUthWithIDTokenValidation.create, hb, ht, jwtVerify, hkey,
    warning_error_recognised, hv]

/-- Witness for C2 (amended): the concrete missing-secret HS256 exchange
succeeds once the claims validator accepts, for the all-rejecting verifier
core `c1Sig` in particular. -/
theorem create_hs256_missing_secret_downgraded_witness :
    c2Client.getKey c2Jwks c2Tok.header =
      Except.error { message := some hs256IgnoreValidationMessage } ∧
    c2Client.create c2Data (Except.ok c2Resp) c2Jwks c1Sig (fun _ _ => none) =
      Except.ok c2Resp :=
  have h := create_hs256_missing_secret_downgraded c2Client c2Data c2Resp c2Tok
    c2Jwks (fun _ _ => none) rfl rfl rfl rfl rfl
  ⟨h.1, h.2 c1Sig⟩

/-- C5 counterexample: the `organization` field is present in the exchange
request data (as the empty string) yet the verification options built from a
client the constructor produced omit it — inclusion follows truthiness, not
presence. -/
theorem verifyOptions_presence_counterexample :
    OAUthWithIDTokenValidation.ofOptions (some ()) (some c5Options) = Except.ok c5Client ∧
    c5Data.organization.isSome = true ∧
    (c5Client.buildVerifyOptions c5Data).organization = none := by
  refine ⟨rfl, rfl, ?_⟩
  rw [buildVerifyOptions_spec]
  decide

/-- C5 (amended): every verification uses options with issuer
`https://<domain>/`, audience the configured client id and algorithms the
configured allow-list (defaulting to `['HS256', 'RS256']` when unspecified at
construction); each of `organization`, `nonce`, `maxAge` is included exactly
when the corresponding exchange-request field is present with a truthy value
(a non-empty string, resp. a non-zero number), in which case the included
value is the field's value. -/
theorem verifyOptions_contents
    (oauth : Option Unit) (o : AuthenticatorOptions)
    (c : OAUthWithIDTokenValidation) (data : ExchangeData)
    (h : OAUthWithIDTokenValidation.ofOptions oauth (some o) = Except.ok c) :
    (c.buildVerifyOptions data).issuer = "https://" ++ jsTemplateStr o.domain ++ "/" ∧
    (c.buildVerifyOptions data).audience = o.clientId ∧
    (c.buildVerifyOptions data).algorithms = o.supportedAlgorithms.getD ["HS256", "RS256"] ∧
    ((c.buildVerifyOptions data).organization.isSome = strTruthy data.organization ∧
      (strTruthy data.organization = true →
        (c.buildVerifyOptions data).organization = data.organization)) ∧
    ((c.buildVerifyOptions data).nonce.isSome = strTruthy data.nonce ∧
      (strTruthy data.nonce = true → (c.buildVerifyOptions data).nonce = data.nonce)) ∧
    ((c.buildVerifyOptions data).maxAge.isSome = intTruthy data.maxAge ∧
      (intTruthy data.maxAge = true → (c.buildVerifyOptions data).maxAge = data.maxAge)) := by
  cases oauth with
  | none => simp [OAUthWithIDTokenValidation.ofOptions] at h
  | some u =>
    simp only [OAUthWithIDTokenValidation.ofOptions, Except.ok.injEq] at h
    rw [← h, buildVerifyOptions_spec]
    refine ⟨rfl, rfl, rfl, ?_, ?_, ?_⟩
    · cases horg : strTruthy data.organization with
      | false => simp
      | true =>
        cases hdo : data.organization with
        | none => rw [hdo] at horg; simp [strTruthy] at horg
        | some s => simp
    · cases hn : strTruthy data.nonce with
      | false => simp
      | true =>
        cases hdn : data.nonce with
        | none => rw [hdn] at hn; simp [strTruthy] at hn
        | some s => simp
    · cases hm : intTruthy data.maxAge with
      | false => simp
      | true =>
        cases hdm : data.maxAge with
        | none => rw [hdm] at hm; simp [intTruthy] at hm
        | some n => simp

/-- Witness for C5 (amended): concrete options with truthy `organization` and
absent `nonce` / `maxAge` produce exactly the expected options object
fields. -/
theorem verifyOptions_contents_witness :
    (c5Client.buildVerifyOptions
        { organization := some "org_123", nonce := none, maxAge := none }).issuer =
      "https://tenant.auth0.com/" ∧
    (c5Client.buildVerifyOptions
        { organization := some "org_123", nonce := none, maxAge := none }).organization.isSome =
      strTruthy (some "org_123") :=
  have h := verifyOptions_contents (some ()) c5Options c5Client
    { organization := some "org_123", nonce := none, maxAge := none } rfl
  ⟨h.1, h.2.2.2.1.1⟩

/-- C7: for every `RolesManager.assignUsers` call with a valid (non-empty)
string `params.id`, a supplied function callback routes the call to the
permissions sub-resource's `create` (forwarding the callback), while the
callback-less form routes it to the users sub-resource's `create`, whose
promise is returned. -/
theorem assignUsers_target_depends_on_callback
    (params : Option RoleParams) (data : Option JsValue) (cb : Option JsValue)
    (p : RoleParams) (s : String)
    (hp : params = some p) (hid : p.id = some (JsValue.str s)) (hs : s ≠ "") :
    (isFuncV cb = true →
      RolesManager.assignUsers params data cb =
        Except.ok (RoleCall.permissionsCreate p (defaultData data) true)) ∧
    (cb = none →
      RolesManager.assignUsers params data cb =
        Except.ok (RoleCall.usersCreate p (defaultData data) false)) := by
  subst hp
  have hcheck : checkRoleId p = none := by
    simp [checkRoleId, hid, jsTruthy, isStringV, hs]
  constructor
  · intro hf
    cases cb with
    | none => simp [isFuncV] at hf
    | some v =>
      cases v <;> simp [isFuncV] at hf
      simp [RolesManager.assignUsers, defaultParams, hcheck, jsTruthy, isFuncV]
  · intro hcb
    subst hcb
    simp [RolesManager.assignUsers, defaultParams, hcheck, jsTruthy, isFuncV]

/-- Witness for C7 at a concrete role id, with and without a callback. -/
theorem assignUsers_target_depends_on_callback_witness :
    RolesManager.assignUsers (some { id := some (JsValue.str "ROLE_ID") }) none
        (some JsValue.func) =
      Except.ok (RoleCall.permissionsCreate { id := some (JsValue.str "ROLE_ID") }
        JsValue.obj true) ∧
    RolesManager.assignUsers (some { id := some (JsValue.str "ROLE_ID") }) none none =
      Except.ok (RoleCall.usersCreate { id := some (JsValue.str "ROLE_ID") }
        JsValue.obj false) :=
  ⟨(assignUsers_target_depends_on_callback
        (some { id := some (JsValue.str "ROLE_ID") }) none (some JsValue.func)
        { id := some (JsValue.str "ROLE_ID") } "ROLE_ID" rfl rfl (by decide)).1 rfl,
    (assignUsers_target_depends_on_callback
        (some { id := some (JsValue.str "ROLE_ID") }) none none
        { id := some (JsValue.str "ROLE_ID") } "ROLE_ID" rfl rfl (by decide)).2 rfl⟩

/-- C9: for every `addPermissions`, `removePermissions` or `assignUsers` call
whose (defaulted) `params.id` is null/undefined or not a string, an
`ArgumentError` is raised synchronously — the settlement is an `Except.error`
even when a callback is supplied — and no sub-resource call (the `Except.ok`
payload) is produced, so no network attempt or retry can follow. -/
theorem roleId_validation_raises_argument_error
    (params : Option RoleParams) (data : Option JsValue) (cb : Option JsValue)
    (h : (match (defaultParams params).id with
          | none => true
          | some v => !(isStringV v)) = true) :
    (∃ m, RolesManager.addPermissions params data cb =
      Except.error (MgmtError.argumentError m)) ∧
    (∃ m, RolesManager.removePermissions params data cb =
      Except.error (MgmtError.argumentError m)) ∧
    (∃ m, RolesManager.assignUsers params data cb =
      Except.error (MgmtError.argumentError m)) := by
  have hcheck : ∃ m, checkRoleId (defaultParams params) = some (MgmtError.argumentError m) := by
    rcases hi : (defaultParams params).id with _ | v
    · exact ⟨"The roleId passed in params cannot be null or undefined",
        by simp [checkRoleId, hi, jsTruthy]⟩
    · rw [hi] at h
      cases v with
      | str s => simp [isStringV] at h
      | num n =>
        by_cases hn : n = 0
        · exact ⟨"The roleId passed in params cannot be null or undefined",
            by simp [checkRoleId, hi, jsTruthy, hn]⟩
        · exact ⟨"The role Id has to be a string",
            by simp [checkRoleId, hi, jsTruthy, hn, isStringV]⟩
      | boolean b =>
        cases b
        · exact ⟨"The roleId passed in params cannot be null or undefined",
            by simp [checkRoleId, hi, jsTruthy]⟩
        · exact ⟨"The role Id has to be a string",
            by simp [checkRoleId, hi, jsTruthy, isStringV]⟩
      | null =>
        exact ⟨"The roleId passed in params cannot be null or undefined",
          by simp [checkRoleId, hi, jsTruthy]⟩
      | func =>
        exact ⟨"The role Id has to be a string",
          by simp [checkRoleId, hi, jsTruthy, isStringV]⟩
      | obj =>
        exact ⟨"The role Id has to be a string",
          by simp [checkRoleId, hi, jsTruthy, isStringV]⟩
  rcases hcheck with ⟨m, hm⟩
  refine ⟨⟨m, ?_⟩, ⟨m, ?_⟩, ⟨m, ?_⟩⟩ <;>
    simp [RolesManager.addPermissions, RolesManager.removePermissions,
      RolesManager.assignUsers, hm]

/-- Witness for C9 at a numeric role id, with a callback supplied. -/
theorem roleId_validation_raises_argument_error_witness :
    (∃ m, RolesManager.addPermissions (some { id := some (JsValue.num 42) }) none
      (some JsValue.func) = Except.error (MgmtError.argumentError m)) ∧
    (∃ m, RolesManager.removePermissions (some { id := some (JsValue.num 42) }) none
      (some JsValue.func) = Except.error (MgmtError.argumentError m)) ∧
    (∃ m, RolesManager.assignUsers (some { id := some (JsValue.num 42) }) none
      (some JsValue.func) = Except.error (MgmtError.argumentError m)) :=
  roleId_validation_raises_argument_error (some { id := some (JsValue.num 42) }) none
    (some JsValue.func) rfl

/-- C8 counterexample: in the callback form, a user callback that itself
throws on the success invocation is invoked a second time — `.then((r) =>
cb(null, r)).catch((e) => cb(e))` routes the thrown error back into the same
callback — so the callback does not fire exactly once on every call. -/
theorem callback_double_invocation_counterexample :
    callbackInvocations (Except.ok c8Resp) c8CbThrows =
      [CbEvent.success c8Resp, CbEvent.failure { message := some "callback threw" }] ∧
    (callbackInvocations (Except.ok c8Resp) c8CbThrows).length ≠ 1 := by
  exact ⟨rfl, by decide⟩

/-- C8 (amended): invoked without a callback, `create` returns the
`createAndValidate` promise itself, so the caller observes exactly the
settlement the callback form would have received; invoked with a callback,
nothing is returned and — provided the callback does not itself throw — the
callback fires exactly once, with that same settlement. -/
theorem dual_mode_dispatch
    (result : Except JsError TokenResponse) (cbThrows : CbEvent → Option JsError)
    (hnothrow : ∀ ev, cbThrows ev = none) :
    createReturn result false = some result ∧
    createReturn result true = none ∧
    callbackInvocations result cbThrows = [settlementEvent result] := by
  refine ⟨rfl, rfl, ?_⟩
  cases result with
  | ok r => simp [callbackInvocations, settlementEvent, hnothrow]
  | error e => simp [callbackInvocations, settlementEvent]

/-- Witness for C8 (amended) at a concrete success settlement and a
non-throwing callback. -/
theorem dual_mode_dispatch_witness :
    createReturn (Except.ok c1Resp) false = some (Except.ok c1Resp) ∧
    createReturn (Except.ok c1Resp) true = none ∧
    callbackInvocations (Except.ok c1Resp) (fun _ => none) =
      [settlementEvent (Except.ok c1Resp)] :=
  dual_mode_dispatch (Except.ok c1Resp) (fun _ => none) (fun _ => rfl)
